import Mathlib

/-!
Verification of the Santa Isabel scraping script
(src/scrapers/scrape_santaisabel.py).

The script is a single linear pipeline: launch a browser, navigate to a
fixed URL, wait for the product selector, resolve the supermarket id from
the database by slug, extract name/price pairs from the product cards,
and bulk-insert the resulting records.  We embed the script shallowly:

* price normalization is the expression
  int(''.join(filter(str.isdigit, price_text)))   (line 109);
  digits are modelled as the ASCII digit characters 0-9;
* a product-card element is modelled by the results the script can
  observe from it: the optional name sub-element, the optional price
  sub-element, and for each the inner_text call which can either return
  a string or raise;
* the whole run is modelled as a function from an environment (outcomes
  of the external collaborators: browser launch, navigation, database
  lookup, database insert, plus the list of card elements found) to the
  trace of observable events, the terminal outcome, and the list of
  records handed to the insert call.
-/

namespace SantaIsabel

/-- Fixed slug, line 13 of the script. -/
def SUPERMARKET_SLUG : String := "santa-isabel"

/-- Fixed screenshot path, line 76 of the script. -/
def SCREENSHOT_PATH : String := "debug_screenshot.png"

/-- The string of digit characters of s in their original order:
''.join(filter(str.isdigit, s)) at line 109. -/
def digitsOf (s : String) : String := String.mk (s.data.filter Char.isDigit)

/-- Python int() applied to a digit-only string: the base-10 value; on the
empty string (and on any string with a non-digit) int() raises ValueError,
modelled as none. -/
def pyInt (s : String) : Option Nat :=
  if !s.data.isEmpty && s.data.all Char.isDigit then
    some (s.data.foldl (fun a c => 10 * a + (c.toNat - 48)) 0)
  else none

/-- Line 109: price = int(''.join(filter(str.isdigit, price_text))). -/
def normalizePrice (s : String) : Option Nat := pyInt (digitsOf s)

/-- Python str.strip(): remove leading and trailing whitespace, line 115
(name.strip()). -/
def pyStrip (s : String) : String :=
  String.mk
    (((s.data.dropWhile Char.isWhitespace).reverse.dropWhile
        Char.isWhitespace).reverse)

/-- Base-10 positional value of a digit string, written the way the spec
reads: first digit weighted by 10 to the number of remaining digits.
This is the spec-side reference definition compared against the code-side
foldl in claim C1. -/
def decimalValue : List Char → Nat
  | [] => 0
  | c :: cs => (c.toNat - 48) * 10 ^ cs.length + decimalValue cs

theorem foldl_decimalValue (l : List Char) :
    ∀ a : Nat, l.foldl (fun a c => 10 * a + (c.toNat - 48)) a
      = a * 10 ^ l.length + decimalValue l := by
  induction l with
  | nil => intro a; simp [decimalValue]
  | cons c cs ih =>
      intro a
      simp only [List.foldl_cons, ih, decimalValue, List.length_cons]
      ring

/-- Claim C1: for every price text string with at least one digit, the
normalization step extracts exactly the digit characters of the string in
their original order and parses them as a base-10 integer (positional
value of the digit sequence). -/
theorem normalizePrice_extracts_digits (s : String)
    (h : s.data.filter Char.isDigit ≠ []) :
    normalizePrice s = some (decimalValue (s.data.filter Char.isDigit)) := by
  unfold normalizePrice pyInt digitsOf
  have hall : (s.data.filter Char.isDigit).all Char.isDigit = true := by
    rw [List.all_eq_true]
    intro c hc
    exact (List.mem_filter.mp hc).2
  have hne : (s.data.filter Char.isDigit).isEmpty = false := by
    simpa [List.isEmpty_iff] using h
  simp only [String.data]
  rw [hne, hall]
  simp [foldl_decimalValue]

/-- Claim C1 witness: the input given in the spec normalizes to 1990. -/
theorem normalizePrice_witness :
    ("$1.990".data.filter Char.isDigit ≠ []) ∧
      normalizePrice "$1.990" = some 1990 := by
  refine ⟨by decide, ?_⟩
  rw [normalizePrice_extracts_digits "$1.990" (by decide)]
  decide

/-- A record appended to products_to_insert, lines 112-116 of the script.
The metadata payload holds only the stripped scraped name. -/
structure ProductRecord where
  supermarket_id : Nat
  price : Nat
  regular_price : Nat
  is_available : Bool
  source : String
  scraped_name : String
deriving Repr, DecidableEq

/-- The outcome of an inner_text call on a sub-element: either the text,
or an exception. -/
inductive TextRes where
  | raises : TextRes
  | ok : String → TextRes
deriving Repr, DecidableEq

/-- A product-card element, through the operations the script performs on
it: query_selector for the name sub-element and for the price sub-element
(none when the sub-element is absent), and inner_text on each. -/
structure Elem where
  nameEl : Option TextRes
  priceEl : Option TextRes
deriving Repr, DecidableEq

/-- Result of the body of the per-element loop, lines 102-116: an
exception was raised (and reaches the per-element except handler), or no
record was produced (missing sub-element, or price not positive), or a
record was appended. -/
inductive ElemResult where
  | raised : ElemResult
  | skipped : ElemResult
  | record : ProductRecord → ElemResult
deriving Repr, DecidableEq

/-- Lines 103-116: query both sub-elements; if both are present, read the
name text, then the price text (either read can raise), normalize the
price (int() raises on an empty digit string), and append a record only
when the price is strictly positive. -/
def extractElem (smId : Nat) (e : Elem) : ElemResult :=
  match e.nameEl, e.priceEl with
  | some nr, some pr =>
    match nr with
    | .raises => .raised
    | .ok name =>
      match pr with
      | .raises => .raised
      | .ok price_text =>
        match normalizePrice price_text with
        | none => .raised
        | some price =>
          if price > 0 then
            .record { supermarket_id := smId, price := price,
                      regular_price := price, is_available := true,
                      source := "scraping", scraped_name := pyStrip name }
          else .skipped
  | _, _ => .skipped

/-- Observable events of a run, in program order. -/
inductive Event where
  | navigate : Event
  | screenshot : String → Event
  | queryAll : Event
  | lookupId : Event
  | extractElement : Nat → Event
  | logExtractError : Nat → Event
  | insertCall : Event
  | closeBrowser : Event
deriving Repr, DecidableEq

/-- One iteration of the loop at lines 101-118 on the element at index
idx: the records it contributes and the events it emits.  An exception in
the body is caught by the except at line 117, which logs a warning. -/
def extractStep (smId idx : Nat) (e : Elem) :
    List ProductRecord × List Event :=
  match extractElem smId e with
  | .raised => ([], [Event.extractElement idx, Event.logExtractError idx])
  | .skipped => ([], [Event.extractElement idx])
  | .record r => ([r], [Event.extractElement idx])

/-- The loop at lines 101-118 over the remaining elements, the next one
having index idx: accumulated products_to_insert and emitted events. -/
def extractLoop (smId idx : Nat) : List Elem → List ProductRecord × List Event
  | [] => ([], [])
  | e :: es =>
    let p := extractStep smId idx e
    let q := extractLoop smId (idx + 1) es
    (p.1 ++ q.1, p.2 ++ q.2)

/-- Outcome of the try block at lines 60-72 (goto, settle waits, scroll,
wait_for_selector): success, a TimeoutError, or any other exception. -/
inductive NavResult where
  | ok : NavResult
  | timeout : NavResult
  | other : NavResult
deriving Repr, DecidableEq

/-- Outcome of the supabase select at line 92: an exception, or the list
of id values in response.data. -/
inductive LookupResult where
  | raised : LookupResult
  | rows : List Nat → LookupResult
deriving Repr, DecidableEq

/-- Outcome of the supabase insert at line 125: an exception, or a
response whose data field holds the given number of rows. -/
inductive InsertResult where
  | raised : InsertResult
  | resp : Nat → InsertResult
deriving Repr, DecidableEq

/-- Everything the external collaborators decide about a run. -/
structure Env where
  launchOk : Bool
  nav : NavResult
  elements : List Elem
  lookup : LookupResult
  insert : InsertResult
deriving Repr

/-- Lines 92-93: supermarket_id = response.data[0]['id'].  An exception
from execute(), or an IndexError on an empty data list, both land in the
except at line 95, modelled as none. -/
def resolveId : LookupResult → Option Nat
  | .raised => none
  | .rows [] => none
  | .rows (i :: _) => some i

/-- Terminal outcome of a run, distinguished by the message printed (all
caught paths return normally); uncaught is an exception that propagates
out of main, so asyncio.run re-raises it and the process terminates with
a traceback and a non-zero exit code. -/
inductive Outcome where
  | uncaught : Outcome
  | navTimeout : Outcome
  | navError : Outcome
  | idResolutionFailed : Outcome
  | emptyExtraction : Outcome
  | inserted : Nat → Outcome
  | insertRespError : Outcome
  | insertException : Outcome
deriving Repr, DecidableEq

/-- Whether the process exits with status 0 for this outcome: every
caught path prints and returns normally; an uncaught exception makes the
interpreter exit abnormally. -/
def exitsNormally : Outcome → Bool
  | .uncaught => false
  | _ => true

/-- What a run produces: its event trace, its terminal outcome, and the
products_to_insert list at the point of the insert decision (line 122). -/
structure RunResult where
  events : List Event
  outcome : Outcome
  toInsert : List ProductRecord
deriving Repr, DecidableEq

/-- The whole of main (lines 32-133).  The launch at line 48 is outside
every try block, so a launch failure propagates uncaught.  On a
TimeoutError the script screenshots to the fixed path, closes the
browser and returns (lines 74-80); on any other navigation exception it
closes and returns (lines 81-84).  Then query_selector_all (line 86),
the id lookup (lines 90-98, closing and returning on failure), the
extraction loop (lines 100-118), browser close (line 120), and the
insert decision (lines 122-133). -/
def run (env : Env) : RunResult :=
  if env.launchOk then
    match env.nav with
    | .timeout =>
      { events := [Event.navigate, Event.screenshot SCREENSHOT_PATH,
                   Event.closeBrowser],
        outcome := .navTimeout, toInsert := [] }
    | .other =>
      { events := [Event.navigate, Event.closeBrowser],
        outcome := .navError, toInsert := [] }
    | .ok =>
      match resolveId env.lookup with
      | none =>
        { events := [Event.navigate, Event.queryAll, Event.lookupId,
                     Event.closeBrowser],
          outcome := .idResolutionFailed, toInsert := [] }
      | some smId =>
        let p := extractLoop smId 0 env.elements
        let evs := [Event.navigate, Event.queryAll, Event.lookupId]
          ++ p.2 ++ [Event.closeBrowser]
        if p.1.isEmpty then
          { events := evs, outcome := .emptyExtraction, toInsert := p.1 }
        else
          match env.insert with
          | .raised =>
            { events := evs ++ [Event.insertCall],
              outcome := .insertException, toInsert := p.1 }
          | .resp n =>
            { events := evs ++ [Event.insertCall],
              outcome := if n > 0 then .inserted n else .insertRespError,
              toInsert := p.1 }
  else
    { events := [], outcome := .uncaught, toInsert := [] }

/-- Every record the element extraction produces carries the resolved
supermarket id, a strictly positive price duplicated into regular_price,
is_available set, and the fixed source tag. -/
theorem extractElem_record {smId : Nat} {e : Elem} {r : ProductRecord}
    (h : extractElem smId e = .record r) :
    0 < r.price ∧ r.is_available = true ∧ r.source = "scraping" ∧
      r.regular_price = r.price ∧ r.supermarket_id = smId := by
  unfold extractElem at h
  repeat' split at h
  all_goals simp_all
  all_goals subst h
  all_goals simp_all

/-- The records of one loop iteration do not depend on the index. -/
theorem extractStep_records_idx (smId i j : Nat) (e : Elem) :
    (extractStep smId i e).1 = (extractStep smId j e).1 := by
  unfold extractStep
  cases extractElem smId e <;> rfl

/-- The records of the loop do not depend on the starting index. -/
theorem extractLoop_records_idx (smId : Nat) (es : List Elem) :
    ∀ i j : Nat, (extractLoop smId i es).1 = (extractLoop smId j es).1 := by
  induction es with
  | nil => intro i j; rfl
  | cons e es ih =>
      intro i j
      simp only [extractLoop]
      rw [extractStep_records_idx smId i j, ih (i + 1) (j + 1)]

/-- Splitting the loop across an append of element lists. -/
theorem extractLoop_append (smId : Nat) (as bs : List Elem) :
    ∀ i : Nat, extractLoop smId i (as ++ bs)
      = ((extractLoop smId i as).1 ++ (extractLoop smId (i + as.length) bs).1,
         (extractLoop smId i as).2 ++ (extractLoop smId (i + as.length) bs).2) := by
  induction as with
  | nil => intro i; simp [extractLoop]
  | cons a as ih =>
      intro i
      have harith : i + 1 + as.length = i + (as.length + 1) := by omega
      simp [extractLoop, ih (i + 1), harith, List.append_assoc]

/-- The loop visits every element: the extraction event of each index
appears in the trace. -/
theorem extractLoop_visits (smId : Nat) (es : List Elem) :
    ∀ i j : Nat, j < es.length →
      Event.extractElement (i + j) ∈ (extractLoop smId i es).2 := by
  induction es with
  | nil => intro i j h; simp at h
  | cons e es ih =>
      intro i j h
      simp only [extractLoop, List.mem_append]
      cases j with
      | zero =>
          left
          unfold extractStep
          cases extractElem smId e <;> simp
      | succ j =>
          right
          have hj : j < es.length := by simpa using h
          have := ih (i + 1) j hj
          have harith : i + 1 + j = i + (j + 1) := by omega
          rwa [harith] at this

/-- The loop never emits an insert event. -/
theorem extractLoop_no_insert (smId : Nat) (es : List Elem) :
    ∀ i : Nat, Event.insertCall ∉ (extractLoop smId i es).2 := by
  induction es with
  | nil => intro i; simp [extractLoop]
  | cons e es ih =>
      intro i
      simp only [extractLoop, List.mem_append, not_or]
      refine ⟨?_, ih (i + 1)⟩
      unfold extractStep
      cases extractElem smId e <;> simp

/-- The loop never emits a browser-close event. -/
theorem extractLoop_no_close (smId : Nat) (es : List Elem) :
    ∀ i : Nat, Event.closeBrowser ∉ (extractLoop smId i es).2 := by
  induction es with
  | nil => intro i; simp [extractLoop]
  | cons e es ih =>
      intro i
      simp only [extractLoop, List.mem_append, not_or]
      refine ⟨?_, ih (i + 1)⟩
      unfold extractStep
      cases extractElem smId e <;> simp

/-- Every record accumulated by the loop was produced by extractElem on
one of the elements. -/
theorem extractLoop_records_sound (smId : Nat) (es : List Elem) :
    ∀ i : Nat, ∀ r ∈ (extractLoop smId i es).1,
      ∃ e ∈ es, extractElem smId e = .record r := by
  induction es with
  | nil => intro i r hr; simp [extractLoop] at hr
  | cons e es ih =>
      intro i r hr
      simp only [extractLoop, List.mem_append] at hr
      rcases hr with hr | hr
      · refine ⟨e, List.mem_cons_self e es, ?_⟩
        unfold extractStep at hr
        rcases hx : extractElem smId e with _ | _ | r0 <;> rw [hx] at hr <;>
          simp at hr
        rw [hr]
      · obtain ⟨e0, he0, hex⟩ := ih (i + 1) r hr
        exact ⟨e0, List.mem_cons_of_mem e he0, hex⟩

/-- products_to_insert in a run is either untouched (early abort) or
exactly the accumulation of the extraction loop under the resolved id. -/
theorem run_toInsert_cases (env : Env) :
    (run env).toInsert = [] ∨
      ∃ smId, resolveId env.lookup = some smId ∧
        (run env).toInsert = (extractLoop smId 0 env.elements).1 := by
  unfold run
  by_cases hl : env.launchOk
  · simp only [hl, if_true]
    cases env.nav
    · cases hr : resolveId env.lookup with
      | none => simp
      | some smId =>
          simp only
          split
          · exact Or.inr ⟨smId, rfl, rfl⟩
          · cases env.insert
            · exact Or.inr ⟨smId, rfl, rfl⟩
            · exact Or.inr ⟨smId, rfl, rfl⟩
    · simp
    · simp
  · simp [hl]

/-- Record produced for the first card of the concrete three-card page. -/
def recMarraqueta : ProductRecord :=
  { supermarket_id := 7, price := 1990, regular_price := 1990,
    is_available := true, source := "scraping",
    scraped_name := "Pan Marraqueta" }

/-- A concrete run: three card elements, two with valid name and price
text and one missing its price sub-element, id lookup succeeding. -/
def envHappy : Env :=
  { launchOk := true, nav := .ok,
    elements :=
      [ ⟨some (.ok "Pan Marraqueta"), some (.ok "$1.990")⟩,
        ⟨some (.ok "Hallulla"), some (.ok "$2.500")⟩,
        ⟨some (.ok "Torta"), none⟩ ],
    lookup := .rows [7], insert := .resp 2 }

/-- Claim C2: no record with price less than or equal to zero is ever in
the list handed to the insert call; every inserted record has a strictly
positive price. -/
theorem inserted_prices_positive (env : Env) (r : ProductRecord)
    (h : r ∈ (run env).toInsert) : 0 < r.price := by
  rcases run_toInsert_cases env with hc | ⟨smId, -, hc⟩
  · rw [hc] at h; simp at h
  · rw [hc] at h
    obtain ⟨e, -, hx⟩ := extractLoop_records_sound smId env.elements 0 r h
    exact (extractElem_record hx).1

/-- Claim C2 witness: a concrete run inserts a record, and its price is
positive. -/
theorem inserted_prices_positive_witness :
    recMarraqueta ∈ (run envHappy).toInsert ∧ 0 < recMarraqueta.price := by
  have hmem : recMarraqueta ∈ (run envHappy).toInsert := by decide
  exact ⟨hmem, inserted_prices_positive envHappy recMarraqueta hmem⟩

/-- Claim C3: every record the pipeline produces for insertion has
is_available true, source equal to the fixed tag scraping, and
regular_price equal to price; and the concrete page with three card
elements, two valid and one missing its price sub-element, yields
exactly two records. -/
theorem record_shape :
    (∀ env : Env, ∀ r ∈ (run env).toInsert,
        r.is_available = true ∧ r.source = "scraping" ∧
          r.regular_price = r.price) ∧
      (run envHappy).toInsert.length = 2 := by
  constructor
  · intro env r h
    rcases run_toInsert_cases env with hc | ⟨smId, -, hc⟩
    · rw [hc] at h; simp at h
    · rw [hc] at h
      obtain ⟨e, -, hx⟩ := extractLoop_records_sound smId env.elements 0 r h
      obtain ⟨-, h1, h2, h3, -⟩ := extractElem_record hx
      exact ⟨h1, h2, h3⟩
  · decide

/-- A concrete run whose id lookup returns zero rows. -/
def envNoRows : Env :=
  { launchOk := true, nav := .ok,
    elements := [⟨some (.ok "Pan"), some (.ok "$1.990")⟩],
    lookup := .rows [], insert := .resp 0 }

/-- Claim C4: when the supermarket-id lookup returns zero rows or raises,
the run ends in the id-resolution failure state with exactly the trace
navigate, query-all, lookup, close — a trace containing no per-element
extraction event and no insert event, so the run aborts before any
element extraction and before any insert attempt. -/
theorem idResolution_failure_aborts (env : Env)
    (h1 : env.launchOk = true) (h2 : env.nav = .ok)
    (h3 : env.lookup = .raised ∨ env.lookup = .rows []) :
    run env = { events := [Event.navigate, Event.queryAll, Event.lookupId,
                           Event.closeBrowser],
                outcome := .idResolutionFailed, toInsert := [] } := by
  have hres : resolveId env.lookup = none := by
    rcases h3 with h | h <;> rw [h] <;> rfl
  simp [run, h1, h2, hres]

/-- Claim C4 witness: the abort happens on a concrete environment whose
lookup returns zero rows even though a card element is present. -/
theorem idResolution_failure_aborts_witness :
    (envNoRows.launchOk = true ∧ envNoRows.nav = .ok ∧
        envNoRows.lookup = .rows []) ∧
      run envNoRows
        = { events := [Event.navigate, Event.queryAll, Event.lookupId,
                       Event.closeBrowser],
            outcome := .idResolutionFailed, toInsert := [] } :=
  ⟨⟨rfl, rfl, rfl⟩,
    idResolution_failure_aborts envNoRows rfl rfl (Or.inr rfl)⟩

/-- Inserting one exception-raising element anywhere leaves the
accumulated record list exactly as if the element were absent. -/
theorem extractLoop_raised_records (smId : Nat) (es₁ es₂ : List Elem)
    (e : Elem) (h : extractElem smId e = .raised) :
    (extractLoop smId 0 (es₁ ++ e :: es₂)).1
      = (extractLoop smId 0 (es₁ ++ es₂)).1 := by
  rw [extractLoop_append smId es₁ (e :: es₂) 0,
      extractLoop_append smId es₁ es₂ 0]
  simp only [extractLoop, extractStep, h, List.nil_append]
  rw [extractLoop_records_idx smId es₂ (0 + es₁.length + 1) (0 + es₁.length)]

/-- An exception-raising element makes the loop emit the warning-log
event at that element's index. -/
theorem extractLoop_raised_log (smId : Nat) (es₁ es₂ : List Elem)
    (e : Elem) (h : extractElem smId e = .raised) :
    Event.logExtractError es₁.length
      ∈ (extractLoop smId 0 (es₁ ++ e :: es₂)).2 := by
  rw [extractLoop_append smId es₁ (e :: es₂) 0]
  simp only [extractLoop, extractStep, h, Nat.zero_add]
  simp

/-- The loop still visits every element after any given position. -/
theorem extractLoop_visits_after (smId : Nat) (es₁ es₂ : List Elem)
    (e : Elem) :
    ∀ j, j < es₂.length →
      Event.extractElement (es₁.length + 1 + j)
        ∈ (extractLoop smId 0 (es₁ ++ e :: es₂)).2 := by
  intro j hj
  rw [extractLoop_append smId es₁ (e :: es₂) 0]
  simp only [extractLoop, Nat.zero_add, List.mem_append]
  right; right
  have := extractLoop_visits smId es₂ (es₁.length + 1) j hj
  exact this

/-- Claim C5: an element whose extraction raises is excluded from the
result list (the records are exactly those of the run without it), the
failure is logged at its index, and every subsequent element is still
visited — a per-element failure never aborts the loop, which is a total
function over the whole element list. -/
theorem element_failure_is_isolated (smId : Nat) (es₁ es₂ : List Elem)
    (e : Elem) (h : extractElem smId e = .raised) :
    (extractLoop smId 0 (es₁ ++ e :: es₂)).1
        = (extractLoop smId 0 (es₁ ++ es₂)).1 ∧
      Event.logExtractError es₁.length
        ∈ (extractLoop smId 0 (es₁ ++ e :: es₂)).2 ∧
      ∀ j, j < es₂.length →
        Event.extractElement (es₁.length + 1 + j)
          ∈ (extractLoop smId 0 (es₁ ++ e :: es₂)).2 :=
  ⟨extractLoop_raised_records smId es₁ es₂ e h,
   extractLoop_raised_log smId es₁ es₂ e h,
   extractLoop_visits_after smId es₁ es₂ e⟩

/-- An element whose name sub-element text read raises. -/
def elemRaising : Elem := ⟨some .raises, some (.ok "$200")⟩

/-- Claim C5 witness: a concrete raising element between two valid ones
is excluded and logged. -/
theorem element_failure_is_isolated_witness :
    (extractElem 7 elemRaising = .raised) ∧
      (extractLoop 7 0
          ([⟨some (.ok "A"), some (.ok "$100")⟩] ++ elemRaising
            :: [⟨some (.ok "B"), some (.ok "$300")⟩])).1
        = (extractLoop 7 0
            ([⟨some (.ok "A"), some (.ok "$100")⟩]
              ++ [⟨some (.ok "B"), some (.ok "$300")⟩])).1 ∧
      Event.logExtractError 1
        ∈ (extractLoop 7 0
            ([⟨some (.ok "A"), some (.ok "$100")⟩] ++ elemRaising
              :: [⟨some (.ok "B"), some (.ok "$300")⟩])).2 := by
  have h : extractElem 7 elemRaising = .raised := rfl
  have := element_failure_is_isolated 7
    [⟨some (.ok "A"), some (.ok "$100")⟩]
    [⟨some (.ok "B"), some (.ok "$300")⟩] elemRaising h
  exact ⟨h, this.1, this.2.1⟩

/-- A concrete run finding zero card elements after a successful wait. -/
def envEmpty : Env :=
  { launchOk := true, nav := .ok, elements := [],
    lookup := .rows [7], insert := .resp 0 }

/-- Claim C6: when the extraction loop accumulates no records (in
particular when zero card elements were found), the run performs no
insert call and ends in the empty-extraction outcome, which is a
different outcome constructor from either insert-failure outcome. -/
theorem empty_extraction_skips_insert (env : Env) (smId : Nat)
    (h1 : env.launchOk = true) (h2 : env.nav = .ok)
    (h3 : resolveId env.lookup = some smId)
    (h4 : (extractLoop smId 0 env.elements).1 = []) :
    (run env).outcome = .emptyExtraction ∧
      Event.insertCall ∉ (run env).events ∧
      Outcome.emptyExtraction ≠ Outcome.insertRespError ∧
      Outcome.emptyExtraction ≠ Outcome.insertException := by
  have hni := extractLoop_no_insert smId env.elements 0
  refine ⟨?_, ?_, by decide, by decide⟩ <;>
    simp [run, h1, h2, h3, h4, hni]

/-- Claim C6 witness: the zero-card concrete run skips the insert. -/
theorem empty_extraction_skips_insert_witness :
    (envEmpty.launchOk = true ∧ envEmpty.nav = .ok ∧
        resolveId envEmpty.lookup = some 7 ∧
        (extractLoop 7 0 envEmpty.elements).1 = []) ∧
      (run envEmpty).outcome = .emptyExtraction ∧
        Event.insertCall ∉ (run envEmpty).events :=
  ⟨⟨rfl, rfl, rfl, rfl⟩,
    (empty_extraction_skips_insert envEmpty 7 rfl rfl rfl rfl).1,
    (empty_extraction_skips_insert envEmpty 7 rfl rfl rfl rfl).2.1⟩

/-- A concrete run whose navigation times out. -/
def envTimeout : Env :=
  { launchOk := true, nav := .timeout, elements := [],
    lookup := .rows [7], insert := .resp 0 }

/-- Claim C7: a timeout during page load or the selector wait produces
exactly the trace navigate, screenshot to the fixed path, close, with
the navigation-timeout outcome; any other navigation exception produces
exactly the trace navigate, close — no screenshot — with the generic
navigation-error outcome; in both traces the browser close is the last
event before the run terminates. -/
theorem navigation_failure_paths (env : Env) (h1 : env.launchOk = true) :
    (env.nav = .timeout →
        run env = { events := [Event.navigate,
                               Event.screenshot SCREENSHOT_PATH,
                               Event.closeBrowser],
                    outcome := .navTimeout, toInsert := [] }) ∧
      (env.nav = .other →
        run env = { events := [Event.navigate, Event.closeBrowser],
                    outcome := .navError, toInsert := [] }) := by
  constructor <;> intro h2 <;> simp [run, h1, h2]

/-- Claim C7 witness: the timeout trace on a concrete environment. -/
theorem navigation_failure_paths_witness :
    envTimeout.launchOk = true ∧
      run envTimeout = { events := [Event.navigate,
                                    Event.screenshot SCREENSHOT_PATH,
                                    Event.closeBrowser],
                         outcome := .navTimeout, toInsert := [] } :=
  ⟨rfl, (navigation_failure_paths envTimeout rfl).1 rfl⟩

/-- A run whose browser launch raises. -/
def envLaunchFail : Env :=
  { launchOk := false, nav := .ok, elements := [],
    lookup := .rows [1], insert := .resp 0 }

/-- Claim C8 counterexample: the launch call at line 48 sits outside
every try block, so a launch failure is not caught: the exception
propagates out of main and the process does not exit normally —
contradicting the claim that every failure in the taxonomy is caught
and the process always exits normally. -/
theorem launch_failure_is_uncaught :
    (run envLaunchFail).outcome = .uncaught ∧
      exitsNormally (run envLaunchFail).outcome = false :=
  ⟨rfl, rfl⟩

/-- Claim C8 as amended: after a successful launch every failure
(navigation timeout, navigation error, id-resolution failure,
per-element extraction failure, insert failure) is caught and the
process exits normally, distinguished only by message text; a launch
failure alone is uncaught, so the process exits normally exactly when
the launch succeeded. -/
theorem exits_normally_iff_launch_ok (env : Env) :
    exitsNormally (run env).outcome = env.launchOk := by
  rcases env with ⟨launchOk, nav, elements, lookup, insert⟩
  cases launchOk
  · rfl
  · cases nav
    · rcases hres : resolveId lookup with _ | smId
      · simp [run, hres, exitsNormally]
      · by_cases hemp : (extractLoop smId 0 elements).1.isEmpty
        · simp [run, hres, hemp, exitsNormally]
        · cases insert with
          | raised => simp [run, hres, hemp, exitsNormally]
          | resp n =>
              by_cases hn : n > 0 <;>
                simp [run, hres, hemp, hn, exitsNormally]
    · rfl
    · rfl

/-- In every launched run the event trace splits around a single
browser-close event, with no close event anywhere else. -/
theorem run_events_shape (env : Env) (h : env.launchOk = true) :
    ∃ pre post : List Event,
      (run env).events = pre ++ Event.closeBrowser :: post ∧
        Event.closeBrowser ∉ pre ∧ Event.closeBrowser ∉ post := by
  rcases env with ⟨launchOk, nav, elements, lookup, insert⟩
  cases launchOk
  · simp at h
  · cases nav
    · rcases hres : resolveId lookup with _ | smId
      · refine ⟨[Event.navigate, Event.queryAll, Event.lookupId], [],
          ?_, by decide, by decide⟩
        simp [run, hres]
      · have hnc := extractLoop_no_close smId elements 0
        by_cases hemp : (extractLoop smId 0 elements).1.isEmpty
        · refine ⟨[Event.navigate, Event.queryAll, Event.lookupId]
              ++ (extractLoop smId 0 elements).2, [], ?_, ?_, by decide⟩
          · simp [run, hres, hemp]
          · simp [hnc]
        · cases insert with
          | raised =>
              refine ⟨[Event.navigate, Event.queryAll, Event.lookupId]
                  ++ (extractLoop smId 0 elements).2, [Event.insertCall],
                ?_, ?_, by decide⟩
              · simp [run, hres, hemp]
              · simp [hnc]
          | resp n =>
              refine ⟨[Event.navigate, Event.queryAll, Event.lookupId]
                  ++ (extractLoop smId 0 elements).2, [Event.insertCall],
                ?_, ?_, by decide⟩
              · simp [run, hres, hemp]
              · simp [hnc]
    · exact ⟨[Event.navigate, Event.screenshot SCREENSHOT_PATH], [],
        by simp [run], by decide, by decide⟩
    · exact ⟨[Event.navigate], [], by simp [run], by decide, by decide⟩

/-- Claim C9: in every launched run — success, navigation timeout,
generic navigation error, id-resolution failure, empty extraction, and
the insert paths — the browser-close event occurs exactly once in the
trace: it is always reached and never emitted twice. -/
theorem browser_closed_exactly_once (env : Env)
    (h : env.launchOk = true) :
    (run env).events.count Event.closeBrowser = 1 := by
  obtain ⟨pre, post, hev, hpre, hpost⟩ := run_events_shape env h
  rw [hev, List.count_append, List.count_cons_self,
      List.count_eq_zero.mpr hpre, List.count_eq_zero.mpr hpost]

/-- Claim C9 witness: exactly one close event on a concrete successful
run with an insert. -/
theorem browser_closed_exactly_once_witness :
    envHappy.launchOk = true ∧
      (run envHappy).events.count Event.closeBrowser = 1 :=
  ⟨rfl, browser_closed_exactly_once envHappy rfl⟩

/-- Claim C10: a card element whose price text contains no digit at all
makes int() raise on the empty digit-filtered string; the per-element
handler catches it, so the element yields no record (the accumulated
records are those of the list without it), the warning is logged at its
index, and the loop goes on with the remaining elements. -/
theorem no_digit_price_element_skipped (smId : Nat) (name ptext : String)
    (es₁ es₂ : List Elem)
    (h : ptext.data.filter Char.isDigit = []) :
    extractElem smId ⟨some (.ok name), some (.ok ptext)⟩ = .raised ∧
      (extractLoop smId 0
          (es₁ ++ ⟨some (.ok name), some (.ok ptext)⟩ :: es₂)).1
        = (extractLoop smId 0 (es₁ ++ es₂)).1 ∧
      Event.logExtractError es₁.length
        ∈ (extractLoop smId 0
            (es₁ ++ ⟨some (.ok name), some (.ok ptext)⟩ :: es₂)).2 := by
  have hx : extractElem smId ⟨some (.ok name), some (.ok ptext)⟩
      = .raised := by
    simp [extractElem, normalizePrice, digitsOf, pyInt, h]
  exact ⟨hx, extractLoop_raised_records smId es₁ es₂ _ hx,
    extractLoop_raised_log smId es₁ es₂ _ hx⟩

/-- Claim C10 witness: a concrete element whose price text has no digits
is skipped and logged, and the surrounding elements are unaffected. -/
theorem no_digit_price_element_skipped_witness :
    ("Agotado".data.filter Char.isDigit = []) ∧
      extractElem 7 ⟨some (.ok "Pan"), some (.ok "Agotado")⟩ = .raised ∧
      (extractLoop 7 0
          ([⟨some (.ok "A"), some (.ok "$100")⟩]
            ++ ⟨some (.ok "Pan"), some (.ok "Agotado")⟩
            :: [⟨some (.ok "B"), some (.ok "$300")⟩])).1
        = (extractLoop 7 0
            ([⟨some (.ok "A"), some (.ok "$100")⟩]
              ++ [⟨some (.ok "B"), some (.ok "$300")⟩])).1 := by
  have h : "Agotado".data.filter Char.isDigit = [] := by decide
  have := no_digit_price_element_skipped 7 "Pan" "Agotado"
    [⟨some (.ok "A"), some (.ok "$100")⟩]
    [⟨some (.ok "B"), some (.ok "$300")⟩] h
  exact ⟨h, this.1, this.2.1⟩

end SantaIsabel
